import Mathlib

/-!
# Verification of the ItkImFilter dispatch core

Shallow embedding of `src/matlab/ItkToolbox/ItkImFilter.cpp` (Gerardus).
The MEX function `itk_imfilter(TYPE, A, ...)` resolves a runtime triple
(filter name string, Matlab element class of `A`, number of dimensions of
`A`) to one compile-time `FilterWrapper` specialisation.  The resolution
cascade is:

* `mexFunction` (lines 1836-1866): checks there are at least two input
  arguments, then calls `parseInputImageDimensionToTemplate`;
* `parseInputImageDimensionToTemplate` (lines 1805-1831): switches on the
  number of dimensions of `A`; only 2, 3 and 4 are accepted;
* `parseInputImageTypeToTemplate` (lines 1754-1803): switches on the Matlab
  class of `A`; nine classes are accepted, `mxUNKNOWN_CLASS` and everything
  else (in particular uint32 and uint64) are rejected;
* `parseOutputImageTypeToTemplate` (lines 1654-1751): an if-else chain on
  the filter name string selecting one of the thirteen `SupportedFilter`
  enum values, else `mexErrMsgTxt("Invalid filter type")`;
* `FilterWrapper<TPixelIn, VImageDimension, FilterEnum>` (lines 474-1636):
  one partial template specialisation per filter; stub specialisations
  call `mexErrMsgTxt` immediately, real ones check the argument count and
  register/graft the outputs.

Every definition below is translated from that source file, except the
few helpers explicitly marked `Modelled from the spec:` whose C++ bodies
live in `MatlabImportFilter.h`, which is not among the provided sources.
-/

/-- The Matlab class identifiers (`mxClassID`) that can describe a numeric
input array, as distinguished by the `switch(im.type)` of
`parseInputImageTypeToTemplate` (lines 1760-1798).  `mxUNKNOWN` is the
`mxUNKNOWN_CLASS` case; `mxUINT32` and `mxUINT64` fall into the `default`
branch (their cases are commented out in the source, lines 1785-1791). -/
inductive MxClass
  | mxLOGICAL
  | mxDOUBLE
  | mxSINGLE
  | mxINT8
  | mxUINT8
  | mxINT16
  | mxUINT16
  | mxINT32
  | mxUINT32
  | mxINT64
  | mxUINT64
  | mxUNKNOWN
deriving DecidableEq, Repr

/-- All constructors of `MxClass`, for finite quantification. -/
def allMxClasses : List MxClass :=
  [.mxLOGICAL, .mxDOUBLE, .mxSINGLE, .mxINT8, .mxUINT8, .mxINT16,
   .mxUINT16, .mxINT32, .mxUINT32, .mxINT64, .mxUINT64, .mxUNKNOWN]

/-- The nine element classes the type dispatcher accepts (the explicit,
non-error cases of the `switch` at lines 1760-1789). -/
def elementTypeCatalog : List MxClass :=
  [.mxLOGICAL, .mxDOUBLE, .mxSINGLE, .mxINT8, .mxUINT8, .mxINT16,
   .mxUINT16, .mxINT32, .mxINT64]

/-- The seven non-floating catalog classes, i.e. the catalog without
`double` and `single`.  Each of these has a hand-written rejection stub
for the Canny filter (lines 580-648). -/
def nonFloatCatalog : List MxClass :=
  [.mxLOGICAL, .mxINT8, .mxUINT8, .mxINT16, .mxUINT16, .mxINT32, .mxINT64]

/-- The six integer catalog classes (catalog without bool, double, single). -/
def integerCatalog : List MxClass :=
  [.mxINT8, .mxUINT8, .mxINT16, .mxUINT16, .mxINT32, .mxINT64]

/-- `true` exactly on the two floating-point Matlab classes. -/
def isFloatClass : MxClass → Bool
  | .mxDOUBLE => true
  | .mxSINGLE => true
  | _ => false

/-- Terminal failures of one invocation.  `msg` is a `mexErrMsgTxt` call
from `ItkImFilter.cpp` with its literal message; `notEnough`/`tooMany`
are the two failure modes of `MatlabImportFilter::CheckNumberOfArguments`
(declared in `MatlabImportFilter.h`, not among the provided sources). -/
inductive MexError
  | msg (s : String)
  | notEnough (minExpected actual : Nat)
  | tooMany (maxAllowed actual : Nat)
deriving DecidableEq, Repr

/-- Modelled from the spec: `MatlabImportFilter::CheckNumberOfArguments`
is only declared in `MatlabImportFilter.h`, which is not among the
provided sources.  The spec's arity rule says the caller must supply at
least the minimum number of arguments, that extra arguments beyond the
declared maximum are an error, and that the failure is an
`ArityError(min, actual)`. -/
def CheckNumberOfArguments (minArgs maxArgs actual : Nat) : Except MexError Unit :=
  if actual < minArgs then .error (.notEnough minArgs actual)
  else if maxArgs < actual then .error (.tooMany maxArgs actual)
  else .ok ()

/-- The `SupportedFilter` enum (lines 447-461).  It is declared as an
`enum` precisely so its values can be passed as the `unsigned int
FilterEnum` template parameter of `FilterWrapper`; we therefore keep the
values as plain naturals, in declaration order. -/
def nCannyEdgeDetectionImageFilter : Nat := 0

def nVotingBinaryIterativeHoleFillingImageFilter : Nat := 1

def nApproximateSignedDistanceMapImageFilter : Nat := 2

def nMedianImageFilter : Nat := 3

def nMultiScaleHessianSmoothed3DToVesselnessMeasureImageFilter : Nat := 4

def nAnisotropicDiffusionVesselEnhancementImageFilter : Nat := 5

def nBinaryThinningImageFilter3D : Nat := 6

def nSignedDanielssonDistanceMapImageFilter : Nat := 7

def nDanielssonDistanceMapImageFilter : Nat := 8

def nSignedMaurerDistanceMapImageFilter : Nat := 9

def nBinaryDilateImageFilter : Nat := 10

def nBinaryErodeImageFilter : Nat := 11

def nMRFImageFilter : Nat := 12

/-- How an output's Matlab element class is chosen by a wrapper.  Each
constructor corresponds to the `TPixelOut`, Voronoi pixel or offset pixel
template argument of a `GraftItkImageOntoMatlab`/`CopyItkImageToMatlab`
call in the wrappers. -/
inductive ElemRule
  | sameAsInput
  /-- `typedef float TPixelOut` (e.g. lines 748, 1114, 1234). -/
  | fixedSingle
  /-- `typedef double TPixelOut` (lines 870, 1175). -/
  | fixedDouble
  /-- `typedef unsigned char LabelPixelType` for MRF (lines 1447-1451). -/
  | fixedLabelUint8
  /-- `InImageType::OffsetType::OffsetValueType`, a `long`, exported as
  int64 per the header comment "W has ... type int64" (line 84). -/
  | fixedOffsetInt64
deriving DecidableEq, Repr

/-- How an output's shape is derived from the input shape `im.size`. -/
inductive ShapeRule
  /-- Scalar image grafted with `im.size` unchanged. -/
  | sameAsInput
  /-- Vector image of per-voxel offsets: one extra leading axis whose
  length is the image dimension, "W has size (3,R,C,S)" (line 84). -/
  | leadingRankAxis
deriving DecidableEq, Repr

/-- One output registered by a wrapper (`RegisterOutput` plus the graft
or copy that fills it). -/
structure OutputRule where
  name : String
  elem : ElemRule
  shape : ShapeRule
deriving DecidableEq, Repr

/-- What one `FilterWrapper` specialisation does when constructed: either
it is a rejection stub whose constructor is a single `mexErrMsgTxt` call,
or it is a real wrapper that first runs
`CheckNumberOfArguments(minIn, InputIndexType_MAX)` on the inputs and
then produces the listed outputs. -/
inductive WrapperSpec
  | stub (errorText : String)
  | run (minIn maxIn : Nat) (outputs : List OutputRule)
deriving DecidableEq, Repr

/-- The `FilterWrapper<TPixelIn, VImageDimension, FilterEnum>` partial
specialisation table (lines 474-1636).  `match fe` plays the role of the
template parameter `FilterEnum`; the catch-all arm is the unspecialised
primary template (lines 474-483), whose constructor is
`mexErrMsgTxt("Unsupported filter type")`.  Inside each arm, the `match`
on the pixel class or the `if` on the dimension mirrors the per-type or
per-dimension stub specialisations of the source. -/
def FilterWrapper (pixel : MxClass) (dim : Nat) (fe : Nat) : WrapperSpec :=
  match fe with
  | 0 =>
    -- nCannyEdgeDetectionImageFilter: stubs for mxLogical, int8_T,
    -- uint8_T, int16_T, uint16_T, int32_T, int64_T (lines 580-648);
    -- generic wrapper otherwise (lines 486-578).
    match pixel with
    | .mxLOGICAL | .mxINT8 | .mxUINT8 | .mxINT16 | .mxUINT16
    | .mxINT32 | .mxINT64 =>
      .stub "CannyEdgeDetectionImageFilter only accepts input images with floating type (double or single)"
    | _ =>
      .run 2 6 [⟨"B", .sameAsInput, .sameAsInput⟩,
                ⟨"C", .sameAsInput, .sameAsInput⟩]
  | 1 =>
    -- nVotingBinaryIterativeHoleFillingImageFilter (lines 651-720):
    -- inputs TYPE, A, RADIUS, MAXITER, THR, BACKGROUND, FOREGROUND.
    .run 2 7 [⟨"B", .sameAsInput, .sameAsInput⟩]
  | 2 =>
    -- nApproximateSignedDistanceMapImageFilter (lines 723-773):
    -- `typedef float TPixelOut`.
    .run 2 2 [⟨"B", .fixedSingle, .sameAsInput⟩]
  | 3 =>
    -- nMedianImageFilter (lines 776-833): inputs TYPE, A, RADIUS.
    .run 2 3 [⟨"B", .sameAsInput, .sameAsInput⟩]
  | 4 =>
    -- nMultiScaleHessianSmoothed3DToVesselnessMeasureImageFilter:
    -- stubs at dimensions 2 and 4 (lines 901-919), generic wrapper with
    -- `typedef double TPixelOut` otherwise (lines 836-899).
    if dim = 2 ∨ dim = 4 then
      .stub "MultiScaleHessianSmoothed3DToVesselnessMeasureImageFilter only accepts 3D input images"
    else
      .run 2 6 [⟨"B", .fixedDouble, .sameAsInput⟩]
  | 5 =>
    -- nAnisotropicDiffusionVesselEnhancementImageFilter: stubs at
    -- dimensions 2 and 4 (lines 999-1017), generic otherwise
    -- (lines 922-997), eleven registered inputs.
    if dim = 2 ∨ dim = 4 then
      .stub "AnisotropicDiffusionVesselEnhancementImageFilter only accepts 3D input images"
    else
      .run 2 11 [⟨"B", .sameAsInput, .sameAsInput⟩]
  | 6 =>
    -- nBinaryThinningImageFilter3D: stubs at dimensions 2 and 4
    -- (lines 1066-1084), generic otherwise (lines 1020-1064).
    if dim = 2 ∨ dim = 4 then
      .stub "BinaryThinningImageFilter3D only accepts 3D input images"
    else
      .run 2 2 [⟨"B", .sameAsInput, .sameAsInput⟩]
  | 7 =>
    -- nSignedDanielssonDistanceMapImageFilter (lines 1087-1145):
    -- `typedef float TPixelOut`; outputs B (distance), V (Voronoi,
    -- input pixel type), W (offset vectors, extra leading axis).
    .run 2 2 [⟨"B", .fixedSingle, .sameAsInput⟩,
              ⟨"V", .sameAsInput, .sameAsInput⟩,
              ⟨"W", .fixedOffsetInt64, .leadingRankAxis⟩]
  | 8 =>
    -- nDanielssonDistanceMapImageFilter (lines 1148-1206):
    -- `typedef double TPixelOut`; outputs B, V, W as above.
    .run 2 2 [⟨"B", .fixedDouble, .sameAsInput⟩,
              ⟨"V", .sameAsInput, .sameAsInput⟩,
              ⟨"W", .fixedOffsetInt64, .leadingRankAxis⟩]
  | 9 =>
    -- nSignedMaurerDistanceMapImageFilter: stub for mxLogical
    -- (lines 1264-1272), generic wrapper with `typedef float TPixelOut`
    -- otherwise (lines 1209-1262).
    match pixel with
    | .mxLOGICAL =>
      .stub "SignedMaurerDistanceMapImageFilter does not accept input image with type boolean"
    | _ =>
      .run 2 2 [⟨"B", .fixedSingle, .sameAsInput⟩]
  | 10 =>
    -- nBinaryDilateImageFilter (lines 1275-1338): inputs TYPE, A,
    -- RADIUS, FOREGROUND.
    .run 2 4 [⟨"B", .sameAsInput, .sameAsInput⟩]
  | 11 =>
    -- nBinaryErodeImageFilter (lines 1341-1406): same interface.
    .run 2 4 [⟨"B", .sameAsInput, .sameAsInput⟩]
  | 12 =>
    -- nMRFImageFilter (lines 1409-1636): inputs TYPE, A, MU, WEIGHTS,
    -- SMOOTH, NITER, TOL; `CheckNumberOfArguments(3, InputIndexType_MAX)`
    -- (line 1424); output is a label image, `unsigned char`.
    .run 3 7 [⟨"B", .fixedLabelUint8, .sameAsInput⟩]
  | _ =>
    -- primary template FilterWrapper (lines 474-483)
    .stub "Unsupported filter type"

/-- The filter-name if-else chain of `parseOutputImageTypeToTemplate`
(lines 1669-1749), in source order, mapping the name (canonical short
name or ITK class-name alias) to the `SupportedFilter` enum value, or
`none` for the final `mexErrMsgTxt("Invalid filter type")` branch. -/
def parseFilterName (filterName : String) : Option Nat :=
  if filterName = "canny" ∨ filterName = "CannyEdgeDetectionImageFilter" then
    some nCannyEdgeDetectionImageFilter
  else if filterName = "appsigndist" ∨ filterName = "ApproximateSignedDistanceMapImageFilter" then
    some nApproximateSignedDistanceMapImageFilter
  else if filterName = "median" ∨ filterName = "MedianImageFilter" then
    some nMedianImageFilter
  else if filterName = "advess" ∨ filterName = "AnisotropicDiffusionVesselEnhancementImageFilter" then
    some nAnisotropicDiffusionVesselEnhancementImageFilter
  else if filterName = "bwdilate" ∨ filterName = "BinaryDilateImageFilter" then
    some nBinaryDilateImageFilter
  else if filterName = "bwerode" ∨ filterName = "BinaryErodeImageFilter" then
    some nBinaryErodeImageFilter
  else if filterName = "skel" ∨ filterName = "BinaryThinningImageFilter3D" then
    some nBinaryThinningImageFilter3D
  else if filterName = "signdandist" ∨ filterName = "SignedDanielssonDistanceMapImageFilter" then
    some nSignedDanielssonDistanceMapImageFilter
  else if filterName = "dandist" ∨ filterName = "DanielssonDistanceMapImageFilter" then
    some nDanielssonDistanceMapImageFilter
  else if filterName = "hesves" ∨ filterName = "MultiScaleHessianSmoothed3DToVesselnessMeasureImageFilter" then
    some nMultiScaleHessianSmoothed3DToVesselnessMeasureImageFilter
  else if filterName = "maudist" ∨ filterName = "SignedMaurerDistanceMapImageFilter" then
    some nSignedMaurerDistanceMapImageFilter
  else if filterName = "mrf" ∨ filterName = "MRFImageFilter" then
    some nMRFImageFilter
  else if filterName = "voteholefill" ∨ filterName = "VotingBinaryIterativeHoleFillingImageFilter" then
    some nVotingBinaryIterativeHoleFillingImageFilter
  else
    none

/-- The element-type dispatch `switch(im.type)` of
`parseInputImageTypeToTemplate` (lines 1760-1798): nine classes continue
into the filter-name dispatch, `mxUNKNOWN_CLASS` and the `default`
branch (which catches uint32 and uint64, whose cases are commented out)
terminate with errors. -/
def parseInputImageType (c : MxClass) : Except MexError Unit :=
  match c with
  | .mxLOGICAL | .mxDOUBLE | .mxSINGLE | .mxINT8 | .mxUINT8
  | .mxINT16 | .mxUINT16 | .mxINT32 | .mxINT64 => .ok ()
  | .mxUNKNOWN => .error (.msg "Input matrix has unknown type.")
  | .mxUINT32 | .mxUINT64 => .error (.msg "Input matrix has invalid type.")

/-- The primary input array as seen by `MatlabImageHeader`: its Matlab
element class and its shape (`im.size`); the number of dimensions is the
length of the shape. -/
structure MatArray where
  elemClass : MxClass
  shape : List Nat
deriving DecidableEq, Repr

/-- One produced output slot: its registered name, its exported Matlab
element class, and its shape. -/
structure MatOutput where
  name : String
  elemClass : MxClass
  shape : List Nat
deriving DecidableEq, Repr

/-- Interpret one `OutputRule` for a concrete input class and shape. -/
def materializeOutput (pixel : MxClass) (shape : List Nat) (r : OutputRule) : MatOutput :=
  { name := r.name
    elemClass :=
      match r.elem with
      | .sameAsInput => pixel
      | .fixedSingle => .mxSINGLE
      | .fixedDouble => .mxDOUBLE
      | .fixedLabelUint8 => .mxUINT8
      | .fixedOffsetInt64 => .mxINT64
    shape :=
      match r.shape with
      | .sameAsInput => shape
      | .leadingRankAxis => shape.length :: shape }

/-- The whole invocation pipeline of `mexFunction` (lines 1836-1866):

1. `CheckNumberOfArguments(2, INT_MAX)` on the caller's argument count
   (line 1847; `INT_MAX` is 2147483647);
2. `parseInputImageDimensionToTemplate` (lines 1805-1831): the `switch`
   on the number of dimensions accepts 2, 3 and 4 and otherwise fails
   with "Input image can only have 2 to 4 dimensions";
3. `parseInputImageTypeToTemplate`: the element-class `switch`;
4. `parseOutputImageTypeToTemplate`: the filter-name chain, failing with
   "Invalid filter type" on an unknown name;
5. the selected `FilterWrapper` specialisation: a stub terminates with
   its `mexErrMsgTxt` message; a real wrapper checks its own argument
   count and then registers its outputs.

`mexErrMsgTxt` aborts the MEX call, so the first error encountered is
the outcome and nothing downstream of it runs. -/
def invoke (nargin : Nat) (filterName : String) (a : MatArray) :
    Except MexError (List MatOutput) :=
  match CheckNumberOfArguments 2 2147483647 nargin with
  | .error e => .error e
  | .ok _ =>
    if a.shape.length = 2 ∨ a.shape.length = 3 ∨ a.shape.length = 4 then
      match parseInputImageType a.elemClass with
      | .error e => .error e
      | .ok _ =>
        match parseFilterName filterName with
        | none => .error (.msg "Invalid filter type")
        | some fe =>
          match FilterWrapper a.elemClass a.shape.length fe with
          | .stub m => .error (.msg m)
          | .run minIn maxIn rules =>
            match CheckNumberOfArguments minIn maxIn nargin with
            | .error e => .error e
            | .ok _ => .ok (rules.map (materializeOutput a.elemClass a.shape))
    else
      .error (.msg "Input image can only have 2 to 4 dimensions")

/-- `true` iff the invocation produced outputs rather than an error. -/
def invokeSucceeds (r : Except MexError (List MatOutput)) : Bool :=
  match r with
  | .ok _ => true
  | .error _ => false

/-- Error/success results of an invocation can be compared decidably, so
concrete invocations can be settled by evaluation. -/
instance {e a : Type} [DecidableEq e] [DecidableEq a] : DecidableEq (Except e a) := fun x y =>
  match x, y with
  | .ok u, .ok v =>
    if h : u = v then .isTrue (by rw [h]) else .isFalse (fun he => by cases he; exact h rfl)
  | .error u, .error v =>
    if h : u = v then .isTrue (by rw [h]) else .isFalse (fun he => by cases he; exact h rfl)
  | .ok _, .error _ => .isFalse (fun he => by cases he)
  | .error _, .ok _ => .isFalse (fun he => by cases he)

/-- `true` iff the invocation succeeded and its first output has a
floating-point element class and the given shape. -/
def firstOutputFloatOfShape (r : Except MexError (List MatOutput)) (s : List Nat) : Bool :=
  match r with
  | .ok (o :: _) => isFloatClass o.elemClass && o.shape == s
  | _ => false

/-- `true` iff the invocation succeeded with at least three outputs and
the third one is an int64 offset-vector field of the given shape. -/
def thirdOutputOffsetOfShape (r : Except MexError (List MatOutput)) (s : List Nat) : Bool :=
  match r with
  | .ok outs =>
    match outs[2]? with
    | some o => (o.elemClass == .mxINT64) && (o.shape == s)
    | none => false
  | .error _ => false

/-- The element class of the first produced output, if any. -/
def firstOutputClass (r : Except MexError (List MatOutput)) : Option MxClass :=
  match r with
  | .ok (o :: _) => some o.elemClass
  | _ => none

/-- The declared minimum input-argument count of a wrapper, `none` for a
rejection stub. -/
def wrapperMin (s : WrapperSpec) : Option Nat :=
  match s with
  | .run minIn _ _ => some minIn
  | .stub _ => none

/-!
## Canny threshold parameter binding

Lines 545-555 of the source: the upper tracking threshold is read first,
defaulting to `std::numeric_limits<TPixelIn>::max()`; the lower threshold
is read afterwards and its default expression is
`filter->GetUpperThreshold() / 2.0`, i.e. it reads the already-bound
upper threshold.  Scalar values are modelled as exact rationals.
-/

/-- Modelled from the spec: `MatlabImportFilter::ReadScalarFromMatlab` is
declared in `MatlabImportFilter.h`, which is not among the provided
sources.  Per the spec's defaulting rule, a missing optional argument
takes the default supplied at the call site, and a supplied argument is
coerced to the target scalar type. -/
def ReadScalarFromMatlab (supplied : Option ℚ) (defaultValue : ℚ) : ℚ :=
  supplied.getD defaultValue

/-- The threshold-binding order of the Canny wrapper (lines 545-555):
`SetUpperThreshold` runs before `SetLowerThreshold`, and the lower
default divides the bound upper threshold by two.  `pixelTypeMax` stands
for `std::numeric_limits<TPixelIn>::max()` of the floating pixel type.
Returns `(upperThreshold, lowerThreshold)`. -/
def cannySetThresholds (uppthr lowthr : Option ℚ) (pixelTypeMax : ℚ) : ℚ × ℚ :=
  let upperThreshold := ReadScalarFromMatlab uppthr pixelTypeMax
  let lowerThreshold := ReadScalarFromMatlab lowthr (upperThreshold / 2)
  (upperThreshold, lowerThreshold)

/-!
## MRF neighbourhood-weight rescaling

Lines 1576-1618 of the source: `meanDistance` is the arithmetic mean of
the caller-supplied centroids (accumulated over the `numberOfClasses`
membership functions, then divided by `numberOfClasses`); `totalWeight`
is the sum of all neighbourhood weights before rescaling; every weight is
then replaced by `weight * meanDistance / (2 * totalWeight)`.  The C++
`double` values are modelled as exact rationals.
-/

/-- The mean centroid value `meanDistance` (lines 1576-1589). -/
def mrfMeanDistance (centroid : List ℚ) : ℚ :=
  centroid.sum / centroid.length

/-- The weight-rescaling loop of the MRF wrapper (lines 1610-1618),
applied to the caller-supplied weights and centroids before
`SetMRFNeighborhoodWeight` and the classifier hookup. -/
def mrfScaleNeighborhoodWeights (weights centroid : List ℚ) : List ℚ :=
  let meanDistance := mrfMeanDistance centroid
  let totalWeight := weights.sum
  weights.map fun w => w * meanDistance / (2 * totalWeight)

/-!
## Resolution lemmas

These unfold `invoke` one stage at a time; every claim theorem below is
proved through them.
-/

/-- Past the global two-argument gate and the rank check, `invoke` is the
type/filter/wrapper cascade. -/
theorem invoke_resolve (nargin : Nat) (filterName : String) (c : MxClass) (shape : List Nat)
    (h2 : 2 ≤ nargin) (hM : nargin ≤ 2147483647)
    (hd : shape.length = 2 ∨ shape.length = 3 ∨ shape.length = 4) :
    invoke nargin filterName ⟨c, shape⟩ =
      (match parseInputImageType c with
       | .error e => .error e
       | .ok _ =>
         match parseFilterName filterName with
         | none => .error (.msg "Invalid filter type")
         | some fe =>
           match FilterWrapper c shape.length fe with
           | .stub m => .error (.msg m)
           | .run minIn maxIn rules =>
             match CheckNumberOfArguments minIn maxIn nargin with
             | .error e => .error e
             | .ok _ => .ok (rules.map (materializeOutput c shape))) := by
  have hgate : CheckNumberOfArguments 2 2147483647 nargin = .ok () := by
    unfold CheckNumberOfArguments
    rw [if_neg (by omega), if_neg (by omega)]
  unfold invoke
  rw [hgate]
  simp only []
  rw [if_pos hd]

/-- Every element class of the nine-member catalog passes the type
dispatch. -/
theorem parse_ok_of_mem {c : MxClass} (hc : c ∈ elementTypeCatalog) :
    parseInputImageType c = .ok () := by
  cases c <;> revert hc <;> decide

/-- An invocation that resolves to a rejection stub terminates with the
stub's message. -/
theorem invoke_stub {nargin : Nat} {filterName : String} {c : MxClass} {shape : List Nat}
    {fe : Nat} {m : String}
    (h2 : 2 ≤ nargin) (hM : nargin ≤ 2147483647)
    (hd : shape.length = 2 ∨ shape.length = 3 ∨ shape.length = 4)
    (hty : parseInputImageType c = .ok ())
    (hf : parseFilterName filterName = some fe)
    (hw : FilterWrapper c shape.length fe = .stub m) :
    invoke nargin filterName ⟨c, shape⟩ = .error (.msg m) := by
  rw [invoke_resolve nargin filterName c shape h2 hM hd, hty]
  simp only []
  rw [hf]
  simp only []
  rw [hw]

/-- An invocation that resolves to a real wrapper, with an argument count
inside the wrapper's declared bounds, produces that wrapper's outputs. -/
theorem invoke_run (nargin : Nat) (filterName : String) (c : MxClass) (shape : List Nat)
    (fe minIn maxIn : Nat) (rules : List OutputRule)
    (h2 : 2 ≤ nargin) (hM : nargin ≤ 2147483647)
    (hd : shape.length = 2 ∨ shape.length = 3 ∨ shape.length = 4)
    (hty : parseInputImageType c = .ok ())
    (hf : parseFilterName filterName = some fe)
    (hw : FilterWrapper c shape.length fe = .run minIn maxIn rules)
    (hmin : minIn ≤ nargin) (hmax : nargin ≤ maxIn) :
    invoke nargin filterName ⟨c, shape⟩ = .ok (rules.map (materializeOutput c shape)) := by
  rw [invoke_resolve nargin filterName c shape h2 hM hd, hty]
  simp only []
  rw [hf]
  simp only []
  rw [hw]
  simp only []
  have hchk : CheckNumberOfArguments minIn maxIn nargin = .ok () := by
    unfold CheckNumberOfArguments
    rw [if_neg (by omega), if_neg (by omega)]
  rw [hchk]

/-- An invocation that resolves to a real wrapper but supplies fewer than
its minimum arguments fails with that wrapper's arity error. -/
theorem invoke_not_enough {nargin : Nat} {filterName : String} {c : MxClass} {shape : List Nat}
    {fe minIn maxIn : Nat} {rules : List OutputRule}
    (h2 : 2 ≤ nargin) (hM : nargin ≤ 2147483647)
    (hd : shape.length = 2 ∨ shape.length = 3 ∨ shape.length = 4)
    (hty : parseInputImageType c = .ok ())
    (hf : parseFilterName filterName = some fe)
    (hw : FilterWrapper c shape.length fe = .run minIn maxIn rules)
    (hlt : nargin < minIn) :
    invoke nargin filterName ⟨c, shape⟩ = .error (.notEnough minIn nargin) := by
  rw [invoke_resolve nargin filterName c shape h2 hM hd, hty]
  simp only []
  rw [hf]
  simp only []
  rw [hw]
  simp only []
  have hchk : CheckNumberOfArguments minIn maxIn nargin = .error (.notEnough minIn nargin) := by
    unfold CheckNumberOfArguments
    rw [if_pos hlt]
  rw [hchk]

/-- An invocation whose element class is rejected by the type dispatch
fails with that dispatch's error, whatever the filter name. -/
theorem invoke_type_error {nargin : Nat} {filterName : String} {c : MxClass} {shape : List Nat}
    {e : MexError}
    (h2 : 2 ≤ nargin) (hM : nargin ≤ 2147483647)
    (hd : shape.length = 2 ∨ shape.length = 3 ∨ shape.length = 4)
    (hty : parseInputImageType c = .error e) :
    invoke nargin filterName ⟨c, shape⟩ = .error e := by
  rw [invoke_resolve nargin filterName c shape h2 hM hd, hty]

/-!
## Claim theorems
-/

/-- **C3**: for every caller-supplied weights vector and centroid vector,
the MRF wrapper rescales every neighbour weight `w` to
`w * mean(MU) / (2 * sum(W))`, where `sum(W)` is the pre-rescaling sum
including zero entries and `mean(MU)` is the arithmetic mean of the
centroids; in particular, for `W = [1,1,1,1,0,1,1,1,1]` and
`MU = [10, 50]` the rescaled weights sum to exactly 15. -/
theorem mrf_neighborhood_weight_rescaling :
    (∀ (weights centroid : List ℚ),
      mrfScaleNeighborhoodWeights weights centroid =
        weights.map (fun w => w * (centroid.sum / centroid.length) / (2 * weights.sum))) ∧
    (mrfScaleNeighborhoodWeights [1, 1, 1, 1, 0, 1, 1, 1, 1] [10, 50]).sum = 15 := by
  constructor
  · intro weights centroid
    rfl
  · norm_num [mrfScaleNeighborhoodWeights, mrfMeanDistance]

/-- **C4**: when the Canny filter is invoked with neither UPPTHR nor
LOWTHR supplied, the resolved lower threshold is exactly half the
resolved upper-threshold default (the pixel type's maximum value); and
whatever the upper threshold resolves to, a missing lower threshold
defaults to half of it, because the upper threshold is bound first and
the lower default reads the bound value. -/
theorem canny_lower_threshold_defaults_to_half_upper :
    ∀ pixelTypeMax : ℚ,
      cannySetThresholds none none pixelTypeMax = (pixelTypeMax, pixelTypeMax / 2) ∧
      ∀ uppthr : Option ℚ,
        (cannySetThresholds uppthr none pixelTypeMax).2 =
          (cannySetThresholds uppthr none pixelTypeMax).1 / 2 := by
  intro pixelTypeMax
  exact ⟨rfl, fun uppthr => rfl⟩

/-- **C5**: the dispatcher checks the rank before the element type and
the filter name: whenever the primary array's number of dimensions is
outside {2,3,4}, any invocation with at least the two mandatory
arguments fails with the rank error — for every filter name (known or
unknown) and every element class — and that single error is the whole
outcome. -/
theorem rank_is_checked_first :
    ∀ (nargin : Nat) (filterName : String) (a : MatArray),
      2 ≤ nargin → nargin ≤ 2147483647 →
      ¬(a.shape.length = 2 ∨ a.shape.length = 3 ∨ a.shape.length = 4) →
      invoke nargin filterName a =
        .error (.msg "Input image can only have 2 to 4 dimensions") := by
  intro nargin filterName a h2 hM hd
  have hgate : CheckNumberOfArguments 2 2147483647 nargin = .ok () := by
    unfold CheckNumberOfArguments
    rw [if_neg (by omega), if_neg (by omega)]
  unfold invoke
  rw [hgate]
  simp only []
  rw [if_neg hd]

/-- Witness for **C5**: a five-dimensional array with an unknown filter
name reports the rank error, not the unknown-filter error. -/
theorem rank_is_checked_first_witness :
    invoke 2 "nosuchfilter" ⟨.mxDOUBLE, [5, 5, 5, 5, 5]⟩ =
      .error (.msg "Input image can only have 2 to 4 dimensions") :=
  rank_is_checked_first 2 "nosuchfilter" ⟨.mxDOUBLE, [5, 5, 5, 5, 5]⟩
    (by omega) (by omega) (by decide)

/-- **C6**: the element classes for which dispatch can proceed are
exactly the nine-member catalog {bool, f32, f64, i8, u8, i16, u16, i32,
i64}; any class outside it — in particular uint32 and uint64 — makes
`invoke` fail with the invalid-type error before any filter is selected
(the outcome is the same for every filter name), at every rank in
{2,3,4}; an array whose class descriptor is unknown fails likewise with
the unknown-type message. -/
theorem element_type_catalog_is_closed :
    (∀ c : MxClass, parseInputImageType c = .ok () ↔ c ∈ elementTypeCatalog) ∧
    (∀ c ∈ [MxClass.mxUINT32, MxClass.mxUINT64],
      ∀ (nargin : Nat) (filterName : String) (shape : List Nat),
        2 ≤ nargin → nargin ≤ 2147483647 →
        shape.length = 2 ∨ shape.length = 3 ∨ shape.length = 4 →
        invoke nargin filterName ⟨c, shape⟩ =
          .error (.msg "Input matrix has invalid type.")) ∧
    (∀ (nargin : Nat) (filterName : String) (shape : List Nat),
      2 ≤ nargin → nargin ≤ 2147483647 →
      shape.length = 2 ∨ shape.length = 3 ∨ shape.length = 4 →
      invoke nargin filterName ⟨MxClass.mxUNKNOWN, shape⟩ =
        .error (.msg "Input matrix has unknown type.")) := by
  refine ⟨?_, ?_, ?_⟩
  · intro c
    cases c <;> simp [parseInputImageType, elementTypeCatalog]
  · intro c hc nargin filterName shape h2 hM hd
    have hc' : c = .mxUINT32 ∨ c = .mxUINT64 := by simpa using hc
    rcases hc' with rfl | rfl <;>
      exact invoke_type_error h2 hM hd rfl
  · intro nargin filterName shape h2 hM hd
    exact invoke_type_error h2 hM hd rfl

/-- Witness for **C6**: a uint32 image is rejected with the invalid-type
error at rank 2 under the Canny filter name. -/
theorem element_type_catalog_is_closed_witness :
    invoke 2 "canny" ⟨.mxUINT32, [7, 7]⟩ =
      .error (.msg "Input matrix has invalid type.") :=
  element_type_catalog_is_closed.2.1 .mxUINT32 (by decide) 2 "canny" [7, 7]
    (by omega) (by omega) (by decide)

/-- **C7**: every invocation must carry at least the filter name and the
primary array (fewer than two arguments is the global arity failure with
minimum 2, for every filter); the MRF filter additionally requires its
centroid vector MU, so two arguments fail for it with minimum 3; and
across the whole wrapper table the declared minimum is 3 for the MRF
wrapper and 2 for every other wrapper that is not a rejection stub. -/
theorem arity_minimum_required_arguments :
    (∀ (nargin : Nat) (filterName : String) (a : MatArray), nargin < 2 →
      invoke nargin filterName a = .error (.notEnough 2 nargin)) ∧
    (∀ c ∈ elementTypeCatalog, ∀ shape : List Nat,
      shape.length = 2 ∨ shape.length = 3 ∨ shape.length = 4 →
      invoke 2 "mrf" ⟨c, shape⟩ = .error (.notEnough 3 2)) ∧
    (∀ fe ∈ List.range 13, ∀ c ∈ allMxClasses, ∀ d ∈ [2, 3, 4],
      wrapperMin (FilterWrapper c d fe) = none ∨
      wrapperMin (FilterWrapper c d fe) =
        some (if fe = nMRFImageFilter then 3 else 2)) := by
  refine ⟨?_, ?_, ?_⟩
  · intro nargin filterName a hlt
    have hgate : CheckNumberOfArguments 2 2147483647 nargin =
        .error (.notEnough 2 nargin) := by
      unfold CheckNumberOfArguments
      rw [if_pos hlt]
    unfold invoke
    rw [hgate]
  · intro c hc shape hd
    exact invoke_not_enough (by omega) (by omega) hd (parse_ok_of_mem hc) rfl rfl
      (by omega)
  · decide

/-- Witness for **C7**: one argument is globally too few; two arguments
are too few for the MRF filter; the MRF wrapper's declared minimum is 3. -/
theorem arity_minimum_required_arguments_witness :
    invoke 1 "skel" ⟨.mxDOUBLE, [5, 5, 5]⟩ = .error (.notEnough 2 1) ∧
    invoke 2 "mrf" ⟨.mxDOUBLE, [5, 5]⟩ = .error (.notEnough 3 2) ∧
    (wrapperMin (FilterWrapper .mxDOUBLE 2 12) = none ∨
      wrapperMin (FilterWrapper .mxDOUBLE 2 12) =
        some (if 12 = nMRFImageFilter then 3 else 2)) :=
  ⟨arity_minimum_required_arguments.1 1 "skel" ⟨.mxDOUBLE, [5, 5, 5]⟩ (by omega),
   arity_minimum_required_arguments.2.1 .mxDOUBLE (by decide) [5, 5] (by decide),
   arity_minimum_required_arguments.2.2 12 (by decide) .mxDOUBLE (by decide) 2
     (by decide)⟩

/-- **C1**: combinations with no valid specialisation are rejected by
stubs, producing an error and no outputs: the Canny filter with any of
the seven non-floating catalog classes at every rank in {2,3,4}; the
three 3D-only filters (skel, advess, hesves) at rank 2 or rank 4 with
any catalog class; and any filter-enum value with no wrapper at all (13
or beyond) selects the primary-template stub that fails immediately. -/
theorem unsupported_combination_stubs :
    (∀ c ∈ nonFloatCatalog, ∀ shape : List Nat,
      shape.length = 2 ∨ shape.length = 3 ∨ shape.length = 4 →
      ∀ nargin : Nat, 2 ≤ nargin → nargin ≤ 2147483647 →
      FilterWrapper c shape.length nCannyEdgeDetectionImageFilter =
        .stub "CannyEdgeDetectionImageFilter only accepts input images with floating type (double or single)" ∧
      invoke nargin "canny" ⟨c, shape⟩ =
        .error (.msg "CannyEdgeDetectionImageFilter only accepts input images with floating type (double or single)")) ∧
    (∀ c ∈ elementTypeCatalog, ∀ shape : List Nat,
      shape.length = 2 ∨ shape.length = 4 →
      ∀ nargin : Nat, 2 ≤ nargin → nargin ≤ 2147483647 →
      invoke nargin "skel" ⟨c, shape⟩ =
        .error (.msg "BinaryThinningImageFilter3D only accepts 3D input images") ∧
      invoke nargin "advess" ⟨c, shape⟩ =
        .error (.msg "AnisotropicDiffusionVesselEnhancementImageFilter only accepts 3D input images") ∧
      invoke nargin "hesves" ⟨c, shape⟩ =
        .error (.msg "MultiScaleHessianSmoothed3DToVesselnessMeasureImageFilter only accepts 3D input images")) ∧
    (∀ (n d : Nat) (c : MxClass),
      FilterWrapper c d (n + 13) = .stub "Unsupported filter type") := by
  refine ⟨?_, ?_, ?_⟩
  · intro c hc shape hd nargin h2 hM
    have hc' : c = .mxLOGICAL ∨ c = .mxINT8 ∨ c = .mxUINT8 ∨ c = .mxINT16 ∨
        c = .mxUINT16 ∨ c = .mxINT32 ∨ c = .mxINT64 := by
      simpa [nonFloatCatalog] using hc
    rcases hc' with rfl | rfl | rfl | rfl | rfl | rfl | rfl <;>
      exact ⟨rfl, invoke_stub h2 hM hd rfl rfl rfl⟩
  · intro c hc shape hd nargin h2 hM
    have hd' : shape.length = 2 ∨ shape.length = 3 ∨ shape.length = 4 := by
      rcases hd with h | h
      · exact Or.inl h
      · exact Or.inr (Or.inr h)
    have hty := parse_ok_of_mem hc
    have hwskel : FilterWrapper c shape.length nBinaryThinningImageFilter3D =
        .stub "BinaryThinningImageFilter3D only accepts 3D input images" := by
      rcases hd with h | h <;> rw [h] <;> rfl
    have hwadvess : FilterWrapper c shape.length
        nAnisotropicDiffusionVesselEnhancementImageFilter =
        .stub "AnisotropicDiffusionVesselEnhancementImageFilter only accepts 3D input images" := by
      rcases hd with h | h <;> rw [h] <;> rfl
    have hwhesves : FilterWrapper c shape.length
        nMultiScaleHessianSmoothed3DToVesselnessMeasureImageFilter =
        .stub "MultiScaleHessianSmoothed3DToVesselnessMeasureImageFilter only accepts 3D input images" := by
      rcases hd with h | h <;> rw [h] <;> rfl
    exact ⟨invoke_stub h2 hM hd' hty rfl hwskel,
           invoke_stub h2 hM hd' hty rfl hwadvess,
           invoke_stub h2 hM hd' hty rfl hwhesves⟩
  · intro n d c
    rfl

/-- Witness for **C1**: the Canny stub fires for an int8 2D image, and
the skeletonizer stub fires for a double 2D image. -/
theorem unsupported_combination_stubs_witness :
    invoke 2 "canny" ⟨.mxINT8, [5, 5]⟩ =
      .error (.msg "CannyEdgeDetectionImageFilter only accepts input images with floating type (double or single)") ∧
    invoke 2 "skel" ⟨.mxDOUBLE, [5, 5]⟩ =
      .error (.msg "BinaryThinningImageFilter3D only accepts 3D input images") :=
  ⟨(unsupported_combination_stubs.1 .mxINT8 (by decide) [5, 5] (by decide) 2
      (by omega) (by omega)).2,
   (unsupported_combination_stubs.2.1 .mxDOUBLE (by decide) [5, 5] (by decide) 2
      (by omega) (by omega)).1⟩

/-- **C2**: on every integer-typed input of shape (10,10,10), each of
the four Euclidean distance filters produces a first (distance) output
of floating-point class and shape (10,10,10), and the two Danielsson
variants additionally produce a third output of shape (3,10,10,10)
holding int64 per-voxel offset vectors. -/
theorem distance_filter_output_inference :
    ∀ c ∈ integerCatalog,
      (∀ f ∈ ["dandist", "signdandist", "maudist", "appsigndist"],
        firstOutputFloatOfShape (invoke 2 f ⟨c, [10, 10, 10]⟩) [10, 10, 10] = true) ∧
      (∀ f ∈ ["dandist", "signdandist"],
        thirdOutputOffsetOfShape (invoke 2 f ⟨c, [10, 10, 10]⟩) [3, 10, 10, 10] = true) := by
  decide

/-- Witness for **C2**: the unsigned Danielsson filter on an int8 volume. -/
theorem distance_filter_output_inference_witness :
    firstOutputFloatOfShape (invoke 2 "dandist" ⟨.mxINT8, [10, 10, 10]⟩)
      [10, 10, 10] = true ∧
    thirdOutputOffsetOfShape (invoke 2 "dandist" ⟨.mxINT8, [10, 10, 10]⟩)
      [3, 10, 10, 10] = true :=
  ⟨(distance_filter_output_inference .mxINT8 (by decide)).1 "dandist" (by decide),
   (distance_filter_output_inference .mxINT8 (by decide)).2 "dandist" (by decide)⟩

/-- **C9**: on every supported input, the unsigned Danielsson filter's
distance output has class double (f64), while the signed Danielsson,
signed Maurer and approximate signed distance filters produce a single
(f32) distance output: the four distance filters do not share one fixed
floating output class. -/
theorem distance_filters_float_width :
    ∀ c ∈ elementTypeCatalog, ∀ shape : List Nat,
      shape.length = 2 ∨ shape.length = 3 ∨ shape.length = 4 →
      firstOutputClass (invoke 2 "dandist" ⟨c, shape⟩) = some .mxDOUBLE ∧
      firstOutputClass (invoke 2 "signdandist" ⟨c, shape⟩) = some .mxSINGLE ∧
      firstOutputClass (invoke 2 "appsigndist" ⟨c, shape⟩) = some .mxSINGLE ∧
      (c ≠ .mxLOGICAL →
        firstOutputClass (invoke 2 "maudist" ⟨c, shape⟩) = some .mxSINGLE) := by
  intro c hc shape hd
  have hty := parse_ok_of_mem hc
  refine ⟨?_, ?_, ?_, ?_⟩
  · rw [invoke_run 2 "dandist" c shape nDanielssonDistanceMapImageFilter 2 2
      [⟨"B", .fixedDouble, .sameAsInput⟩, ⟨"V", .sameAsInput, .sameAsInput⟩,
       ⟨"W", .fixedOffsetInt64, .leadingRankAxis⟩]
      (by omega) (by omega) hd hty rfl rfl (by omega) (by omega)]
    rfl
  · rw [invoke_run 2 "signdandist" c shape nSignedDanielssonDistanceMapImageFilter 2 2
      [⟨"B", .fixedSingle, .sameAsInput⟩, ⟨"V", .sameAsInput, .sameAsInput⟩,
       ⟨"W", .fixedOffsetInt64, .leadingRankAxis⟩]
      (by omega) (by omega) hd hty rfl rfl (by omega) (by omega)]
    rfl
  · rw [invoke_run 2 "appsigndist" c shape nApproximateSignedDistanceMapImageFilter 2 2
      [⟨"B", .fixedSingle, .sameAsInput⟩]
      (by omega) (by omega) hd hty rfl rfl (by omega) (by omega)]
    rfl
  · intro hne
    have hw : FilterWrapper c shape.length nSignedMaurerDistanceMapImageFilter =
        .run 2 2 [⟨"B", .fixedSingle, .sameAsInput⟩] := by
      cases c <;> first | rfl | exact absurd rfl hne
    rw [invoke_run 2 "maudist" c shape nSignedMaurerDistanceMapImageFilter 2 2
      [⟨"B", .fixedSingle, .sameAsInput⟩]
      (by omega) (by omega) hd hty rfl hw (by omega) (by omega)]
    rfl

/-- Witness for **C9**: a uint8 2D image yields a double distance map
from the unsigned Danielsson filter and a single distance map from the
signed Maurer filter. -/
theorem distance_filters_float_width_witness :
    firstOutputClass (invoke 2 "dandist" ⟨.mxUINT8, [6, 6]⟩) = some .mxDOUBLE ∧
    firstOutputClass (invoke 2 "maudist" ⟨.mxUINT8, [6, 6]⟩) = some .mxSINGLE :=
  ⟨(distance_filters_float_width .mxUINT8 (by decide) [6, 6] (by decide)).1,
   (distance_filters_float_width .mxUINT8 (by decide) [6, 6] (by decide)).2.2.2
     (by decide)⟩

/-- **C10**: the signed Maurer distance filter rejects boolean input at
every rank through a dedicated stub, before any filter object exists,
while the other three distance filters accept boolean input at every
supported rank. -/
theorem maudist_rejects_boolean :
    (∀ d : Nat, FilterWrapper .mxLOGICAL d nSignedMaurerDistanceMapImageFilter =
      .stub "SignedMaurerDistanceMapImageFilter does not accept input image with type boolean") ∧
    (∀ shape : List Nat,
      shape.length = 2 ∨ shape.length = 3 ∨ shape.length = 4 →
      invoke 2 "maudist" ⟨.mxLOGICAL, shape⟩ =
        .error (.msg "SignedMaurerDistanceMapImageFilter does not accept input image with type boolean") ∧
      ∀ f ∈ ["dandist", "signdandist", "appsigndist"],
        invokeSucceeds (invoke 2 f ⟨.mxLOGICAL, shape⟩) = true) := by
  constructor
  · intro d
    rfl
  · intro shape hd
    constructor
    · exact invoke_stub (by omega) (by omega) hd rfl rfl rfl
    · intro f hf
      have hf' : f = "dandist" ∨ f = "signdandist" ∨ f = "appsigndist" := by
        simpa using hf
      rcases hf' with rfl | rfl | rfl
      · rw [invoke_run 2 "dandist" .mxLOGICAL shape nDanielssonDistanceMapImageFilter 2 2
          [⟨"B", .fixedDouble, .sameAsInput⟩, ⟨"V", .sameAsInput, .sameAsInput⟩,
           ⟨"W", .fixedOffsetInt64, .leadingRankAxis⟩]
          (by omega) (by omega) hd rfl rfl rfl (by omega) (by omega)]
        rfl
      · rw [invoke_run 2 "signdandist" .mxLOGICAL shape nSignedDanielssonDistanceMapImageFilter 2 2
          [⟨"B", .fixedSingle, .sameAsInput⟩, ⟨"V", .sameAsInput, .sameAsInput⟩,
           ⟨"W", .fixedOffsetInt64, .leadingRankAxis⟩]
          (by omega) (by omega) hd rfl rfl rfl (by omega) (by omega)]
        rfl
      · rw [invoke_run 2 "appsigndist" .mxLOGICAL shape nApproximateSignedDistanceMapImageFilter 2 2
          [⟨"B", .fixedSingle, .sameAsInput⟩]
          (by omega) (by omega) hd rfl rfl rfl (by omega) (by omega)]
        rfl

/-- Witness for **C10**: boolean input at rank 2 is rejected by the
signed Maurer filter but accepted by the unsigned Danielsson filter. -/
theorem maudist_rejects_boolean_witness :
    invoke 2 "maudist" ⟨.mxLOGICAL, [9, 9]⟩ =
      .error (.msg "SignedMaurerDistanceMapImageFilter does not accept input image with type boolean") ∧
    invokeSucceeds (invoke 2 "dandist" ⟨.mxLOGICAL, [9, 9]⟩) = true :=
  ⟨(maudist_rejects_boolean.2 [9, 9] (by decide)).1,
   (maudist_rejects_boolean.2 [9, 9] (by decide)).2 "dandist" (by decide)⟩
